import Mathlib

/-!
Shallow embedding of the rocket mesh generator
(`import plotly.py`): primitive mesh generators, vertex transformations,
and the recursive scene-graph traversal `build_scene`.

Vertices are triples of real numbers; a face is a triple of natural-number
indices into the vertex list.  Python's `raise ValueError` is modelled by
`Except.error`; the `print` of a warning is modelled by collecting the
printed strings in a list.
-/

namespace Rocket

/-- A 3D point with real coordinates, as one row of the numpy vertex array. -/
@[ext]
structure Vec3 where
  x : ℝ
  y : ℝ
  z : ℝ

/-- Elementwise addition of 3D vectors (used to state translation claims). -/
noncomputable instance : Add Vec3 :=
  ⟨fun a b => ⟨a.x + b.x, a.y + b.y, a.z + b.z⟩⟩

/-- Degrees to radians, as `np.deg2rad`. -/
noncomputable def deg2rad (d : ℝ) : ℝ := d * (Real.pi / 180)

/-- Source `create_cube_mesh`: 8 corner vertices of an axis-aligned box of
the given per-axis `size` centered at `center`, and 12 hand-enumerated
triangular faces. -/
noncomputable def create_cube_mesh (center size : Vec3) :
    List Vec3 × List (ℕ × ℕ × ℕ) :=
  let x := center.x; let y := center.y; let z := center.z
  let sx := size.x / 2; let sy := size.y / 2; let sz := size.z / 2
  ([⟨x - sx, y - sy, z - sz⟩, ⟨x + sx, y - sy, z - sz⟩,
    ⟨x + sx, y + sy, z - sz⟩, ⟨x - sx, y + sy, z - sz⟩,
    ⟨x - sx, y - sy, z + sz⟩, ⟨x + sx, y - sy, z + sz⟩,
    ⟨x + sx, y + sy, z + sz⟩, ⟨x - sx, y + sy, z + sz⟩],
   [(0, 1, 2), (0, 2, 3), (4, 5, 6), (4, 6, 7), (0, 1, 5), (0, 5, 4),
    (3, 2, 6), (3, 6, 7), (0, 3, 7), (0, 7, 4), (1, 2, 6), (1, 6, 5)])

/-- Source `create_cylinder_mesh`: `segments` angular samples
(`np.linspace(0, 2*pi, segments, endpoint=False)`, i.e. `2*pi*i/segments`)
duplicated at bottom and top z, plus the two cap-center vertices; cap fans
and side quads wrap via `(i+1) % segments`. -/
noncomputable def create_cylinder_mesh (center : Vec3) (radius height : ℝ)
    (segments : ℕ) : List Vec3 × List (ℕ × ℕ × ℕ) :=
  let theta : ℕ → ℝ := fun i => 2 * Real.pi * i / segments
  let vBottom := (List.range segments).map fun i =>
    Vec3.mk (radius * Real.cos (theta i) + center.x)
      (radius * Real.sin (theta i) + center.y) (center.z - height / 2)
  let vTop := (List.range segments).map fun i =>
    Vec3.mk (radius * Real.cos (theta i) + center.x)
      (radius * Real.sin (theta i) + center.y) (center.z + height / 2)
  let vertices := vBottom ++ vTop ++
    [⟨center.x, center.y, center.z - height / 2⟩,
     ⟨center.x, center.y, center.z + height / 2⟩]
  let bottomCap := (List.range segments).map fun i =>
    (i, (i + 1) % segments, 2 * segments)
  let topCap := (List.range segments).map fun i =>
    (segments + i, segments + (i + 1) % segments, 2 * segments + 1)
  let sides := (List.range segments).flatMap fun i =>
    [(i, (i + 1) % segments, segments + (i + 1) % segments),
     (i, segments + (i + 1) % segments, segments + i)]
  (vertices, bottomCap ++ topCap ++ sides)

/-- Source `create_cone_mesh`: `segments` base-circle vertices, one apex
vertex (index `segments`) and one base-center vertex (index `segments+1`);
side fans to the apex, base-cap fans to the base center. -/
noncomputable def create_cone_mesh (center : Vec3) (radius height : ℝ)
    (segments : ℕ) : List Vec3 × List (ℕ × ℕ × ℕ) :=
  let theta : ℕ → ℝ := fun i => 2 * Real.pi * i / segments
  let vBase := (List.range segments).map fun i =>
    Vec3.mk (radius * Real.cos (theta i) + center.x)
      (radius * Real.sin (theta i) + center.y) center.z
  let vertices := vBase ++
    [⟨center.x, center.y, center.z + height⟩, ⟨center.x, center.y, center.z⟩]
  let sides := (List.range segments).map fun i =>
    (i, (i + 1) % segments, segments)
  let baseCap := (List.range segments).map fun i =>
    (i, (i + 1) % segments, segments + 1)
  (vertices, sides ++ baseCap)

/-- Source `create_torus_mesh`: nested loop over `major_segments` ×
`minor_segments` with the standard torus parametrization; faces wrap both
grid indices via modulo. -/
noncomputable def create_torus_mesh (center : Vec3)
    (major_radius minor_radius : ℝ) (major_segments minor_segments : ℕ) :
    List Vec3 × List (ℕ × ℕ × ℕ) :=
  let phi : ℕ → ℝ := fun i => 2 * Real.pi * i / major_segments
  let theta : ℕ → ℝ := fun j => 2 * Real.pi * j / minor_segments
  let vertices := (List.range major_segments).flatMap fun i =>
    (List.range minor_segments).map fun j =>
      Vec3.mk
        ((major_radius + minor_radius * Real.cos (theta j)) * Real.cos (phi i)
          + center.x)
        ((major_radius + minor_radius * Real.cos (theta j)) * Real.sin (phi i)
          + center.y)
        (minor_radius * Real.sin (theta j) + center.z)
  let faces := (List.range major_segments).flatMap fun i =>
    (List.range minor_segments).flatMap fun j =>
      [(i * minor_segments + j,
        i * minor_segments + (j + 1) % minor_segments,
        ((i + 1) % major_segments) * minor_segments + (j + 1) % minor_segments),
       (i * minor_segments + j,
        ((i + 1) % major_segments) * minor_segments + (j + 1) % minor_segments,
        ((i + 1) % major_segments) * minor_segments + j)]
  (vertices, faces)

/-- Source `create_sphere_mesh`: latitude rows `i ∈ [0, segments]` and
longitude columns `j ∈ [0, segments]` (both inclusive, so the seam is
duplicated); faces use non-wrapping adjacent indices over the
`segments × segments` grid cells. -/
noncomputable def create_sphere_mesh (center : Vec3) (radius : ℝ)
    (segments : ℕ) : List Vec3 × List (ℕ × ℕ × ℕ) :=
  let lat : ℕ → ℝ := fun i => Real.pi * (-(1 / 2) + (i : ℝ) / segments)
  let lon : ℕ → ℝ := fun j => 2 * Real.pi * j / segments
  let vertices := (List.range (segments + 1)).flatMap fun i =>
    (List.range (segments + 1)).map fun j =>
      Vec3.mk (radius * Real.cos (lat i) * Real.cos (lon j) + center.x)
        (radius * Real.cos (lat i) * Real.sin (lon j) + center.y)
        (radius * Real.sin (lat i) + center.z)
  let faces := (List.range segments).flatMap fun i =>
    (List.range segments).flatMap fun j =>
      [(i * (segments + 1) + j, i * (segments + 1) + j + 1,
        (i + 1) * (segments + 1) + j + 1),
       (i * (segments + 1) + j, (i + 1) * (segments + 1) + j + 1,
        (i + 1) * (segments + 1) + j)]
  (vertices, faces)

/-- Source `translate`: elementwise vector addition on every vertex. -/
noncomputable def translate (vertices : List Vec3) (tx ty tz : ℝ) :
    List Vec3 :=
  vertices.map fun v => ⟨v.x + tx, v.y + ty, v.z + tz⟩

/-- Source `rotate_x`: right-handed rotation about the X axis by
`angle_deg` degrees, applied as `v @ Rx.T` to every vertex row. -/
noncomputable def rotate_x (vertices : List Vec3) (angle_deg : ℝ) :
    List Vec3 :=
  let a := deg2rad angle_deg
  vertices.map fun v =>
    ⟨v.x, Real.cos a * v.y - Real.sin a * v.z,
      Real.sin a * v.y + Real.cos a * v.z⟩

/-- Source `rotate_y`: right-handed rotation about the Y axis by
`angle_deg` degrees, applied as `v @ Ry.T` to every vertex row. -/
noncomputable def rotate_y (vertices : List Vec3) (angle_deg : ℝ) :
    List Vec3 :=
  let a := deg2rad angle_deg
  vertices.map fun v =>
    ⟨Real.cos a * v.x + Real.sin a * v.z, v.y,
      -Real.sin a * v.x + Real.cos a * v.z⟩

/-- Source `rotate_z`: right-handed rotation about the Z axis by
`angle_deg` degrees, applied as `v @ Rz.T` to every vertex row. -/
noncomputable def rotate_z (vertices : List Vec3) (angle_deg : ℝ) :
    List Vec3 :=
  let a := deg2rad angle_deg
  vertices.map fun v =>
    ⟨Real.cos a * v.x - Real.sin a * v.y,
      Real.sin a * v.x + Real.cos a * v.y, v.z⟩

/-- Source `scale`: elementwise multiplication on every vertex. -/
noncomputable def scale (vertices : List Vec3) (sx sy sz : ℝ) : List Vec3 :=
  vertices.map fun v => ⟨v.x * sx, v.y * sy, v.z * sz⟩

/-- One entry of a node's `transformations` list: a `"type"` tag and a
`"params"` number list, as in the Python scene-graph dictionaries. -/
structure TransformInfo where
  ttype : String
  params : List ℝ

/-- The fields of a `"primitive"` scene-graph dictionary that `build_scene`
reads: shape tag, color, the `initial_*` parameters and the ordered
transformation list. -/
structure PrimFields where
  shape : String
  color : String
  initial_size : Vec3
  initial_radius : ℝ
  initial_height : ℝ
  initial_major_radius : ℝ
  initial_minor_radius : ℝ
  transformations : List TransformInfo

/-- A scene-graph dictionary: its `"type"` string, the primitive fields
(read only when `ntype = "primitive"`) and the `"children"` list (read only
when `ntype = "group"`). -/
inductive SceneNode where
  | mk (ntype : String) (prim : PrimFields) (children : List SceneNode)

/-- The data of one `go.Mesh3d` trace that `build_scene` emits: final
vertex list, untouched face list, and the node's color. -/
structure Mesh where
  vertices : List Vec3
  faces : List (ℕ × ℕ × ℕ)
  color : String

/-- One step of the transformation loop in `build_scene`: dispatch on the
entry's `"type"`; an unknown type prints a warning (collected in the second
component) and leaves the vertices unchanged. -/
noncomputable def applyTransform (vs : List Vec3) (t : TransformInfo) :
    List Vec3 × List String :=
  if t.ttype = "translate" then
    (translate vs (t.params.getD 0 0) (t.params.getD 1 0) (t.params.getD 2 0),
     [])
  else if t.ttype = "rotate_x" then (rotate_x vs (t.params.getD 0 0), [])
  else if t.ttype = "rotate_y" then (rotate_y vs (t.params.getD 0 0), [])
  else if t.ttype = "rotate_z" then (rotate_z vs (t.params.getD 0 0), [])
  else if t.ttype = "scale" then
    (scale vs (t.params.getD 0 0) (t.params.getD 1 0) (t.params.getD 2 0), [])
  else (vs, ["Warning: Unknown transformation type: " ++ t.ttype])

/-- The transformation loop of `build_scene`: fold `applyTransform` over the
node's transformation list in declared order, collecting all warnings. -/
noncomputable def applyTransformList :
    List Vec3 → List TransformInfo → List Vec3 × List String
  | vs, [] => (vs, [])
  | vs, t :: ts =>
    let r1 := applyTransform vs t
    let r2 := applyTransformList r1.1 ts
    (r2.1, r1.2 ++ r2.2)

/-- The shape dispatch of `build_scene`: each recognized shape calls its
generator with the node's `initial_*` parameters and the Python default
values for the remaining arguments (center `[0,0,0]`, cylinder/cone/sphere
`segments=20`, torus `major_segments=30`, `minor_segments=15`); an
unrecognized shape gives `none` (the `raise ValueError` branch). -/
noncomputable def genShape (p : PrimFields) :
    Option (List Vec3 × List (ℕ × ℕ × ℕ)) :=
  if p.shape = "cube" then some (create_cube_mesh ⟨0, 0, 0⟩ p.initial_size)
  else if p.shape = "cylinder" then
    some (create_cylinder_mesh ⟨0, 0, 0⟩ p.initial_radius p.initial_height 20)
  else if p.shape = "cone" then
    some (create_cone_mesh ⟨0, 0, 0⟩ p.initial_radius p.initial_height 20)
  else if p.shape = "sphere" then
    some (create_sphere_mesh ⟨0, 0, 0⟩ p.initial_radius 20)
  else if p.shape = "torus" then
    some (create_torus_mesh ⟨0, 0, 0⟩ p.initial_major_radius
      p.initial_minor_radius 30 15)
  else none

mutual

/-- Source `build_scene`: on a `"primitive"` node, generate the shape
(`Except.error` on an unknown shape, as `raise ValueError`), apply the
transformation list in order, and emit one mesh with the node's color; on a
`"group"` node, concatenate the children's results in declared order; on
any other `"type"`, return the empty trace list.  The second component
collects the printed warnings. -/
noncomputable def build_scene : SceneNode → Except String (List Mesh × List String)
  | SceneNode.mk ntype prim children =>
    if ntype = "primitive" then
      match genShape prim with
      | none => Except.error ("Unknown primitive shape: " ++ prim.shape)
      | some vf =>
        let r := applyTransformList vf.1 prim.transformations
        Except.ok ([Mesh.mk r.1 vf.2 prim.color], r.2)
    else if ntype = "group" then buildChildren children
    else Except.ok ([], [])

/-- The `for child_node in children` loop of `build_scene`: build each child
in order and concatenate traces (and warnings). -/
noncomputable def buildChildren : List SceneNode → Except String (List Mesh × List String)
  | [] => Except.ok ([], [])
  | c :: cs => do
    let r1 ← build_scene c
    let r2 ← buildChildren cs
    Except.ok (r1.1 ++ r2.1, r1.2 ++ r2.2)

end

/-- The five shape tags the dispatch in `build_scene` recognizes. -/
def knownShapes : List String :=
  ["cube", "cylinder", "cone", "sphere", "torus"]

/-- The five transformation tags the loop in `build_scene` recognizes. -/
def knownTransformTypes : List String :=
  ["translate", "rotate_x", "rotate_y", "rotate_z", "scale"]

/-- A primitive node carrying the unrecognized shape tag `"pyramid"`. -/
noncomputable def pyramidNode : SceneNode :=
  SceneNode.mk "primitive"
    (PrimFields.mk "pyramid" "green" ⟨1, 1, 1⟩ 1 1 1 1 []) []

/-- Concrete cube-shaped primitive fields used by witnesses. -/
noncomputable def cubeFields : PrimFields :=
  PrimFields.mk "cube" "blue" ⟨1, 1, 1⟩ 1 1 1 1 []

/-- Concrete sphere-shaped primitive fields used by witnesses. -/
noncomputable def sphereFields : PrimFields :=
  PrimFields.mk "sphere" "lightblue" ⟨1, 1, 1⟩ (3 / 10) 1 1 1 []

/-- Dummy primitive fields for nodes whose fields `build_scene` ignores. -/
noncomputable def emptyFields : PrimFields :=
  PrimFields.mk "" "" ⟨0, 0, 0⟩ 0 0 0 0 []

/-! Helper lemmas shared by the claim theorems. -/

theorem Vec3.add_def (a b : Vec3) :
    a + b = ⟨a.x + b.x, a.y + b.y, a.z + b.z⟩ := rfl

/-- Length of a rectangular grid built by `flatMap` over `map`. -/
lemma length_grid {α : Type} (n k : ℕ) (f : ℕ → ℕ → α) :
    ((List.range n).flatMap fun i => (List.range k).map (f i)).length
      = n * k := by
  induction n with
  | zero => simp
  | succ n ih =>
    rw [List.range_succ]
    simp only [List.flatMap_append, List.length_append, ih, Nat.succ_mul,
      List.flatMap_cons, List.flatMap_nil, List.append_nil, List.length_map,
      List.length_range]

/-- A row-major grid index is below the grid size. -/
lemma grid_lt {i j a b : ℕ} (hi : i < a) (hj : j < b) : i * b + j < a * b :=
  calc i * b + j < i * b + b := by omega
    _ = (i + 1) * b := by ring
    _ ≤ a * b := Nat.mul_le_mul_right b hi

/-- The cylinder generator emits `2*segments + 2` vertices. -/
lemma cylinder_vertex_count (c : Vec3) (r h : ℝ) (s : ℕ) :
    (create_cylinder_mesh c r h s).1.length = 2 * s + 2 := by
  simp [create_cylinder_mesh]
  omega

/-- The cone generator emits `segments + 2` vertices. -/
lemma cone_vertex_count (c : Vec3) (r h : ℝ) (s : ℕ) :
    (create_cone_mesh c r h s).1.length = s + 2 := by
  simp [create_cone_mesh]

/-- The sphere generator emits `(segments + 1)^2` vertices. -/
lemma sphere_vertex_count (c : Vec3) (r : ℝ) (s : ℕ) :
    (create_sphere_mesh c r s).1.length = (s + 1) ^ 2 := by
  show ((List.range (s + 1)).flatMap _).length = (s + 1) ^ 2
  rw [length_grid, sq]

/-- The torus generator emits `major_segments * minor_segments` vertices. -/
lemma torus_vertex_count (c : Vec3) (R rm : ℝ) (M m : ℕ) :
    (create_torus_mesh c R rm M m).1.length = M * m := by
  show ((List.range M).flatMap _).length = M * m
  rw [length_grid]

/-- C1: for every positive segment count and any center/radius/height
parameters, `create_cylinder_mesh` returns exactly `2*segments + 2`
vertices, `create_sphere_mesh` returns exactly `(segments+1)^2` vertices,
and `create_torus_mesh` returns exactly
`major_segments * minor_segments` vertices. -/
theorem vertex_count_formulas (c1 c2 c3 : Vec3) (r h r2 R rm : ℝ)
    (s s2 M m : ℕ) (hs : 0 < s) (hs2 : 0 < s2) (hM : 0 < M) (hm : 0 < m) :
    (create_cylinder_mesh c1 r h s).1.length = 2 * s + 2 ∧
    (create_sphere_mesh c2 r2 s2).1.length = (s2 + 1) ^ 2 ∧
    (create_torus_mesh c3 R rm M m).1.length = M * m :=
  ⟨cylinder_vertex_count c1 r h s, sphere_vertex_count c2 r2 s2,
   torus_vertex_count c3 R rm M m⟩

/-- C1 witness: the count formulas evaluated at segment counts 3, 3 and
4 × 3. -/
theorem vertex_count_formulas_witness :
    (create_cylinder_mesh ⟨0, 0, 0⟩ 1 2 3).1.length = 2 * 3 + 2 ∧
    (create_sphere_mesh ⟨0, 0, 0⟩ 1 3).1.length = (3 + 1) ^ 2 ∧
    (create_torus_mesh ⟨0, 0, 0⟩ 1 (1 / 2) 4 3).1.length = 4 * 3 :=
  vertex_count_formulas ⟨0, 0, 0⟩ ⟨0, 0, 0⟩ ⟨0, 0, 0⟩ 1 2 1 1 (1 / 2)
    3 3 4 3 (by decide) (by decide) (by decide) (by decide)

/-- Every cube face index is below the cube's vertex count. -/
lemma cube_faces_lt (c sz : Vec3) :
    ∀ f ∈ (create_cube_mesh c sz).2,
      f.1 < (create_cube_mesh c sz).1.length ∧
      f.2.1 < (create_cube_mesh c sz).1.length ∧
      f.2.2 < (create_cube_mesh c sz).1.length := by
  intro f hf
  have hl : (create_cube_mesh c sz).1.length = 8 := rfl
  have hf8 : f ∈ [((0:ℕ), (1:ℕ), (2:ℕ)), (0, 2, 3), (4, 5, 6), (4, 6, 7),
      (0, 1, 5), (0, 5, 4), (3, 2, 6), (3, 6, 7), (0, 3, 7), (0, 7, 4),
      (1, 2, 6), (1, 6, 5)] := hf
  rw [hl]
  simp only [List.mem_cons, List.not_mem_nil, or_false] at hf8
  rcases hf8 with rfl | rfl | rfl | rfl | rfl | rfl | rfl | rfl | rfl |
    rfl | rfl | rfl <;> decide

/-- Every cylinder face index is below the cylinder's vertex count. -/
lemma cylinder_faces_lt (c : Vec3) (r h : ℝ) {s : ℕ} (hs : 0 < s) :
    ∀ f ∈ (create_cylinder_mesh c r h s).2,
      f.1 < (create_cylinder_mesh c r h s).1.length ∧
      f.2.1 < (create_cylinder_mesh c r h s).1.length ∧
      f.2.2 < (create_cylinder_mesh c r h s).1.length := by
  intro f hf
  rw [cylinder_vertex_count]
  have hmod : ∀ i : ℕ, (i + 1) % s < s := fun i => Nat.mod_lt _ hs
  simp only [create_cylinder_mesh, List.mem_append, List.mem_map,
    List.mem_range, List.mem_flatMap, List.mem_cons, List.not_mem_nil,
    or_false] at hf
  rcases hf with (⟨i, hi, rfl⟩ | ⟨i, hi, rfl⟩) | ⟨i, hi, rfl | rfl⟩ <;>
    · have := hmod i
      dsimp only
      omega

/-- Every cone face index is below the cone's vertex count. -/
lemma cone_faces_lt (c : Vec3) (r h : ℝ) {s : ℕ} (hs : 0 < s) :
    ∀ f ∈ (create_cone_mesh c r h s).2,
      f.1 < (create_cone_mesh c r h s).1.length ∧
      f.2.1 < (create_cone_mesh c r h s).1.length ∧
      f.2.2 < (create_cone_mesh c r h s).1.length := by
  intro f hf
  rw [cone_vertex_count]
  have hmod : ∀ i : ℕ, (i + 1) % s < s := fun i => Nat.mod_lt _ hs
  simp only [create_cone_mesh, List.mem_append, List.mem_map,
    List.mem_range] at hf
  rcases hf with ⟨i, hi, rfl⟩ | ⟨i, hi, rfl⟩ <;>
    · have := hmod i
      dsimp only
      omega

/-- Every sphere face index is below the sphere's vertex count. -/
lemma sphere_faces_lt (c : Vec3) (r : ℝ) (s : ℕ) :
    ∀ f ∈ (create_sphere_mesh c r s).2,
      f.1 < (create_sphere_mesh c r s).1.length ∧
      f.2.1 < (create_sphere_mesh c r s).1.length ∧
      f.2.2 < (create_sphere_mesh c r s).1.length := by
  intro f hf
  rw [sphere_vertex_count]
  simp only [create_sphere_mesh, List.mem_flatMap, List.mem_range,
    List.mem_cons, List.not_mem_nil, or_false] at hf
  obtain ⟨i, hi, j, hj, hf⟩ := hf
  have h0 : i * (s + 1) + j < (s + 1) * (s + 1) :=
    grid_lt (by omega) (by omega)
  have h1 : i * (s + 1) + j + 1 < (s + 1) * (s + 1) := by
    have : i * (s + 1) + (j + 1) < (s + 1) * (s + 1) :=
      grid_lt (by omega) (by omega)
    omega
  have h2 : (i + 1) * (s + 1) + j + 1 < (s + 1) * (s + 1) := by
    have : (i + 1) * (s + 1) + (j + 1) < (s + 1) * (s + 1) :=
      grid_lt (by omega) (by omega)
    omega
  have h3 : (i + 1) * (s + 1) + j < (s + 1) * (s + 1) :=
    grid_lt (by omega) (by omega)
  rw [sq]
  rcases hf with rfl | rfl
  · exact ⟨h0, h1, h2⟩
  · exact ⟨h0, h2, h3⟩

/-- Every torus face index is below the torus's vertex count. -/
lemma torus_faces_lt (c : Vec3) (R rm : ℝ) {M m : ℕ}
    (hM : 0 < M) (hm : 0 < m) :
    ∀ f ∈ (create_torus_mesh c R rm M m).2,
      f.1 < (create_torus_mesh c R rm M m).1.length ∧
      f.2.1 < (create_torus_mesh c R rm M m).1.length ∧
      f.2.2 < (create_torus_mesh c R rm M m).1.length := by
  intro f hf
  rw [torus_vertex_count]
  simp only [create_torus_mesh, List.mem_flatMap, List.mem_range,
    List.mem_cons, List.not_mem_nil, or_false] at hf
  obtain ⟨i, hi, j, hj, hf⟩ := hf
  have e1 : (j + 1) % m < m := Nat.mod_lt _ hm
  have e2 : (i + 1) % M < M := Nat.mod_lt _ hM
  rcases hf with rfl | rfl
  · exact ⟨grid_lt hi hj, grid_lt hi e1, grid_lt e2 e1⟩
  · exact ⟨grid_lt hi hj, grid_lt e2 e1, grid_lt e2 hj⟩

/-- C2: for every primitive generator and all parameter values with
positive segment counts, every index in the returned face list is strictly
below the number of returned vertices. -/
theorem face_indices_bounded (c0 sz c1 c2 c3 c4 : Vec3)
    (ra ha rb hb rc R rm : ℝ) (s1 s2 s3 M m : ℕ)
    (hs1 : 0 < s1) (hs2 : 0 < s2) (hs3 : 0 < s3) (hM : 0 < M) (hm : 0 < m) :
    (∀ f ∈ (create_cube_mesh c0 sz).2,
      f.1 < (create_cube_mesh c0 sz).1.length ∧
      f.2.1 < (create_cube_mesh c0 sz).1.length ∧
      f.2.2 < (create_cube_mesh c0 sz).1.length) ∧
    (∀ f ∈ (create_cylinder_mesh c1 ra ha s1).2,
      f.1 < (create_cylinder_mesh c1 ra ha s1).1.length ∧
      f.2.1 < (create_cylinder_mesh c1 ra ha s1).1.length ∧
      f.2.2 < (create_cylinder_mesh c1 ra ha s1).1.length) ∧
    (∀ f ∈ (create_cone_mesh c2 rb hb s2).2,
      f.1 < (create_cone_mesh c2 rb hb s2).1.length ∧
      f.2.1 < (create_cone_mesh c2 rb hb s2).1.length ∧
      f.2.2 < (create_cone_mesh c2 rb hb s2).1.length) ∧
    (∀ f ∈ (create_sphere_mesh c3 rc s3).2,
      f.1 < (create_sphere_mesh c3 rc s3).1.length ∧
      f.2.1 < (create_sphere_mesh c3 rc s3).1.length ∧
      f.2.2 < (create_sphere_mesh c3 rc s3).1.length) ∧
    (∀ f ∈ (create_torus_mesh c4 R rm M m).2,
      f.1 < (create_torus_mesh c4 R rm M m).1.length ∧
      f.2.1 < (create_torus_mesh c4 R rm M m).1.length ∧
      f.2.2 < (create_torus_mesh c4 R rm M m).1.length) :=
  ⟨cube_faces_lt c0 sz, cylinder_faces_lt c1 ra ha hs1,
   cone_faces_lt c2 rb hb hs2, sphere_faces_lt c3 rc s3,
   torus_faces_lt c4 R rm hM hm⟩

/-- C2 witness: face-index bounds at concrete parameters with segment
counts 3, 3, 3 and 4 × 3. -/
theorem face_indices_bounded_witness :
    (∀ f ∈ (create_cube_mesh ⟨0, 0, 0⟩ ⟨1, 1, 1⟩).2,
      f.1 < (create_cube_mesh ⟨0, 0, 0⟩ ⟨1, 1, 1⟩).1.length ∧
      f.2.1 < (create_cube_mesh ⟨0, 0, 0⟩ ⟨1, 1, 1⟩).1.length ∧
      f.2.2 < (create_cube_mesh ⟨0, 0, 0⟩ ⟨1, 1, 1⟩).1.length) ∧
    (∀ f ∈ (create_cylinder_mesh ⟨0, 0, 0⟩ 1 2 3).2,
      f.1 < (create_cylinder_mesh ⟨0, 0, 0⟩ 1 2 3).1.length ∧
      f.2.1 < (create_cylinder_mesh ⟨0, 0, 0⟩ 1 2 3).1.length ∧
      f.2.2 < (create_cylinder_mesh ⟨0, 0, 0⟩ 1 2 3).1.length) ∧
    (∀ f ∈ (create_cone_mesh ⟨0, 0, 0⟩ 1 2 3).2,
      f.1 < (create_cone_mesh ⟨0, 0, 0⟩ 1 2 3).1.length ∧
      f.2.1 < (create_cone_mesh ⟨0, 0, 0⟩ 1 2 3).1.length ∧
      f.2.2 < (create_cone_mesh ⟨0, 0, 0⟩ 1 2 3).1.length) ∧
    (∀ f ∈ (create_sphere_mesh ⟨0, 0, 0⟩ 1 3).2,
      f.1 < (create_sphere_mesh ⟨0, 0, 0⟩ 1 3).1.length ∧
      f.2.1 < (create_sphere_mesh ⟨0, 0, 0⟩ 1 3).1.length ∧
      f.2.2 < (create_sphere_mesh ⟨0, 0, 0⟩ 1 3).1.length) ∧
    (∀ f ∈ (create_torus_mesh ⟨0, 0, 0⟩ 1 (1 / 2) 4 3).2,
      f.1 < (create_torus_mesh ⟨0, 0, 0⟩ 1 (1 / 2) 4 3).1.length ∧
      f.2.1 < (create_torus_mesh ⟨0, 0, 0⟩ 1 (1 / 2) 4 3).1.length ∧
      f.2.2 < (create_torus_mesh ⟨0, 0, 0⟩ 1 (1 / 2) 4 3).1.length) :=
  face_indices_bounded ⟨0, 0, 0⟩ ⟨1, 1, 1⟩ ⟨0, 0, 0⟩ ⟨0, 0, 0⟩ ⟨0, 0, 0⟩
    ⟨0, 0, 0⟩ 1 2 1 2 1 1 (1 / 2) 3 3 3 4 3
    (by decide) (by decide) (by decide) (by decide) (by decide)

/-- Congruence for `flatMap` over a fixed list. -/
lemma flatMap_congr_left {α β : Type} {l : List α} {f g : α → List β}
    (h : ∀ a ∈ l, f a = g a) : l.flatMap f = l.flatMap g := by
  induction l with
  | nil => rfl
  | cons a t ih =>
    simp only [List.flatMap_cons, h a (by simp),
      ih fun b hb => h b (by simp [hb])]

/-- C5: for every primitive generator, every parameter assignment and every
offset vector `v`, calling the generator with center `c + v` yields the
vertex list produced with center `c` translated elementwise by exactly `v`
(via the source's `translate`), and an identical face list. -/
theorem center_offset_translates (cn v sz : Vec3) (ra ha rb hb rc R rm : ℝ)
    (s1 s2 s3 M m : ℕ) :
    ((create_cube_mesh (cn + v) sz).1
        = translate (create_cube_mesh cn sz).1 v.x v.y v.z ∧
      (create_cube_mesh (cn + v) sz).2 = (create_cube_mesh cn sz).2) ∧
    ((create_cylinder_mesh (cn + v) ra ha s1).1
        = translate (create_cylinder_mesh cn ra ha s1).1 v.x v.y v.z ∧
      (create_cylinder_mesh (cn + v) ra ha s1).2
        = (create_cylinder_mesh cn ra ha s1).2) ∧
    ((create_cone_mesh (cn + v) rb hb s2).1
        = translate (create_cone_mesh cn rb hb s2).1 v.x v.y v.z ∧
      (create_cone_mesh (cn + v) rb hb s2).2
        = (create_cone_mesh cn rb hb s2).2) ∧
    ((create_sphere_mesh (cn + v) rc s3).1
        = translate (create_sphere_mesh cn rc s3).1 v.x v.y v.z ∧
      (create_sphere_mesh (cn + v) rc s3).2
        = (create_sphere_mesh cn rc s3).2) ∧
    ((create_torus_mesh (cn + v) R rm M m).1
        = translate (create_torus_mesh cn R rm M m).1 v.x v.y v.z ∧
      (create_torus_mesh (cn + v) R rm M m).2
        = (create_torus_mesh cn R rm M m).2) := by
  refine ⟨⟨?_, rfl⟩, ⟨?_, rfl⟩, ⟨?_, rfl⟩, ⟨?_, rfl⟩, ⟨?_, rfl⟩⟩
  · simp only [create_cube_mesh, translate, Vec3.add_def, List.map_cons,
      List.map_nil, List.cons.injEq, and_true]
    and_intros <;> (ext <;> dsimp <;> ring)
  · simp only [create_cylinder_mesh, translate, Vec3.add_def,
      List.map_append, List.map_map, List.map_cons, List.map_nil]
    congr 1
    · congr 1 <;>
        exact List.map_congr_left fun i _ => by ext <;> dsimp <;> ring
    · congr 2 <;> (try ext) <;> dsimp <;> ring
  · simp only [create_cone_mesh, translate, Vec3.add_def, List.map_append,
      List.map_map, List.map_cons, List.map_nil]
    congr 1
    · exact List.map_congr_left fun i _ => by ext <;> dsimp <;> ring
    · congr 2 <;> (try ext) <;> dsimp <;> ring
  · simp only [create_sphere_mesh, translate, Vec3.add_def,
      List.map_flatMap, List.map_map]
    refine flatMap_congr_left fun i _ => ?_
    refine List.map_congr_left fun j _ => ?_
    ext <;> dsimp <;> ring
  · simp only [create_torus_mesh, translate, Vec3.add_def,
      List.map_flatMap, List.map_map]
    refine flatMap_congr_left fun i _ => ?_
    refine List.map_congr_left fun j _ => ?_
    ext <;> dsimp <;> ring

/-- Degree-to-radian conversion is odd. -/
lemma deg2rad_neg (d : ℝ) : deg2rad (-d) = -(deg2rad d) := by
  unfold deg2rad; ring

/-- C6: for every vertex list and every angle θ in degrees, applying
`rotate_x`, `rotate_y` or `rotate_z` with angle θ and then the same
rotation with angle −θ restores the original vertex list exactly (real
arithmetic). -/
theorem rotation_roundtrip (vs : List Vec3) (θ : ℝ) :
    rotate_x (rotate_x vs θ) (-θ) = vs ∧
    rotate_y (rotate_y vs θ) (-θ) = vs ∧
    rotate_z (rotate_z vs θ) (-θ) = vs := by
  have hsc := Real.sin_sq_add_cos_sq (deg2rad θ)
  refine ⟨?_, ?_, ?_⟩
  · simp only [rotate_x, List.map_map, deg2rad_neg, Real.cos_neg,
      Real.sin_neg]
    conv_rhs => rw [← List.map_id vs]
    refine List.map_congr_left fun p _ => ?_
    ext
    · dsimp
    · dsimp; linear_combination p.y * hsc
    · dsimp; linear_combination p.z * hsc
  · simp only [rotate_y, List.map_map, deg2rad_neg, Real.cos_neg,
      Real.sin_neg]
    conv_rhs => rw [← List.map_id vs]
    refine List.map_congr_left fun p _ => ?_
    ext
    · dsimp; linear_combination p.x * hsc
    · dsimp
    · dsimp; linear_combination p.z * hsc
  · simp only [rotate_z, List.map_map, deg2rad_neg, Real.cos_neg,
      Real.sin_neg]
    conv_rhs => rw [← List.map_id vs]
    refine List.map_congr_left fun p _ => ?_
    ext
    · dsimp; linear_combination p.x * hsc
    · dsimp; linear_combination p.y * hsc
    · dsimp

/-- C7: there is a point on which translating by (1,0,0) and then rotating
about Z by 90 degrees differs from rotating first and translating second:
the two transform orders do not commute. -/
theorem transform_order_matters :
    ∃ p : Vec3,
      rotate_z (translate [p] 1 0 0) 90 ≠ translate (rotate_z [p] 90) 1 0 0 := by
  refine ⟨⟨0, 0, 0⟩, ?_⟩
  have h90 : deg2rad 90 = Real.pi / 2 := by unfold deg2rad; ring
  simp only [rotate_z, translate, List.map_cons, List.map_nil, h90,
    Real.cos_pi_div_two, Real.sin_pi_div_two]
  intro h
  rw [List.cons.injEq, Vec3.mk.injEq] at h
  have hx := h.1.1
  norm_num at hx

/-- A recognized shape makes `genShape` succeed. -/
lemma genShape_known {p : PrimFields} (h : p.shape ∈ knownShapes) :
    ∃ vf, genShape p = some vf := by
  simp only [knownShapes, List.mem_cons, List.not_mem_nil, or_false] at h
  rcases h with h | h | h | h | h <;> simp [genShape, h]

/-- On a `"primitive"` node with a recognized shape, `build_scene` returns
one mesh: the transformed vertices, the generator's faces, and the node's
color. -/
lemma build_scene_primitive {p : PrimFields} (cs : List SceneNode)
    (h : p.shape ∈ knownShapes) :
    ∃ vf : List Vec3 × List (ℕ × ℕ × ℕ),
      genShape p = some vf ∧
      build_scene (SceneNode.mk "primitive" p cs)
        = Except.ok
            ([Mesh.mk (applyTransformList vf.1 p.transformations).1 vf.2
                p.color],
             (applyTransformList vf.1 p.transformations).2) := by
  obtain ⟨vf, hvf⟩ := genShape_known h
  exact ⟨vf, hvf, by simp [build_scene, hvf]⟩

/-- C3: a primitive node whose shape tag is not one of the five recognized
shapes makes `build_scene` fail immediately with the "Unknown primitive
shape" error; no empty or truncated mesh list is returned. -/
theorem unknown_shape_fatal (p : PrimFields) (cs : List SceneNode)
    (h : p.shape ∉ knownShapes) :
    build_scene (SceneNode.mk "primitive" p cs)
      = Except.error ("Unknown primitive shape: " ++ p.shape) := by
  have hg : genShape p = none := by
    simp only [knownShapes, List.mem_cons, List.not_mem_nil, or_false,
      not_or] at h
    simp [genShape, h.1, h.2.1, h.2.2.1, h.2.2.2.1, h.2.2.2.2]
  simp [build_scene, hg]

/-- C3 witness: the shape tag `"pyramid"` is fatal. -/
theorem unknown_shape_fatal_witness :
    build_scene pyramidNode
      = Except.error ("Unknown primitive shape: " ++ "pyramid") :=
  unknown_shape_fatal (PrimFields.mk "pyramid" "green" ⟨1, 1, 1⟩ 1 1 1 1 [])
    [] (by decide)

/-- C4: an unrecognized transformation entry only reports a warning and is
skipped — the vertex list is exactly the one produced by the remaining
transformations — and a recognized-shape primitive node still builds
successfully. -/
theorem unknown_transform_skipped (p : PrimFields) (cs : List SceneNode)
    (vs : List Vec3) (t : TransformInfo) (rest : List TransformInfo)
    (hshape : p.shape ∈ knownShapes) (ht : t.ttype ∉ knownTransformTypes) :
    applyTransformList vs (t :: rest)
      = ((applyTransformList vs rest).1,
         ("Warning: Unknown transformation type: " ++ t.ttype)
           :: (applyTransformList vs rest).2) ∧
    ∃ res, build_scene (SceneNode.mk "primitive" p cs) = Except.ok res := by
  constructor
  · have hA : applyTransform vs t
        = (vs, ["Warning: Unknown transformation type: " ++ t.ttype]) := by
      simp only [knownTransformTypes, List.mem_cons, List.not_mem_nil,
        or_false, not_or] at ht
      simp [applyTransform, ht.1, ht.2.1, ht.2.2.1, ht.2.2.2.1, ht.2.2.2.2]
    simp [applyTransformList, hA]
  · obtain ⟨vf, _, hb⟩ := build_scene_primitive cs hshape
    exact ⟨_, hb⟩

/-- C4 witness: a `"shear"` entry on a cube node is skipped with a warning
and the node still builds. -/
theorem unknown_transform_skipped_witness :
    applyTransformList [] [TransformInfo.mk "shear" []]
      = ((applyTransformList [] []).1,
         ("Warning: Unknown transformation type: " ++ "shear")
           :: (applyTransformList [] []).2) ∧
    ∃ res,
      build_scene (SceneNode.mk "primitive" cubeFields []) = Except.ok res :=
  unknown_transform_skipped cubeFields [] [] (TransformInfo.mk "shear" []) []
    (by decide) (by decide)

/-- C10: a node whose type tag is neither `"primitive"` nor `"group"`
makes `build_scene` return the empty trace list, with no error and no
warning. -/
theorem unknown_node_type_empty (t : String) (p : PrimFields)
    (cs : List SceneNode) (h1 : t ≠ "primitive") (h2 : t ≠ "group") :
    build_scene (SceneNode.mk t p cs) = Except.ok ([], []) := by
  simp [build_scene, h1, h2]

/-- C10 witness: a `"decoration"` node yields the empty trace list. -/
theorem unknown_node_type_empty_witness :
    build_scene (SceneNode.mk "decoration" cubeFields [])
      = Except.ok ([], []) :=
  unknown_node_type_empty "decoration" cubeFields [] (by decide) (by decide)

/-- C8: on a group node `build_scene` concatenates the children's results
in declared order; in particular a group with exactly two recognized
primitive children yields a two-element mesh list whose k-th element
carries the k-th child's color. -/
theorem group_children_concatenated (g p1 p2 : PrimFields)
    (cs1 cs2 : List SceneNode)
    (h1 : p1.shape ∈ knownShapes) (h2 : p2.shape ∈ knownShapes) :
    (∀ (c : SceneNode) (rest : List SceneNode)
        (a b : List Mesh × List String),
        build_scene c = Except.ok a → buildChildren rest = Except.ok b →
        build_scene (SceneNode.mk "group" g (c :: rest))
          = Except.ok (a.1 ++ b.1, a.2 ++ b.2)) ∧
    ∃ m1 m2 w1 w2,
      build_scene (SceneNode.mk "primitive" p1 cs1) = Except.ok ([m1], w1) ∧
      build_scene (SceneNode.mk "primitive" p2 cs2) = Except.ok ([m2], w2) ∧
      m1.color = p1.color ∧ m2.color = p2.color ∧
      build_scene (SceneNode.mk "group" g
          [SceneNode.mk "primitive" p1 cs1, SceneNode.mk "primitive" p2 cs2])
        = Except.ok ([m1, m2], w1 ++ w2) := by
  have hgroup : ∀ (c : SceneNode) (rest : List SceneNode)
      (a b : List Mesh × List String),
      build_scene c = Except.ok a → buildChildren rest = Except.ok b →
      build_scene (SceneNode.mk "group" g (c :: rest))
        = Except.ok (a.1 ++ b.1, a.2 ++ b.2) := by
    intro c rest a b hc hr
    simp only [build_scene, buildChildren, hc, hr]
    rfl
  refine ⟨hgroup, ?_⟩
  obtain ⟨vf1, _, hb1⟩ := build_scene_primitive cs1 h1
  obtain ⟨vf2, _, hb2⟩ := build_scene_primitive cs2 h2
  refine ⟨_, _, _, _, hb1, hb2, rfl, rfl, ?_⟩
  have hrest : buildChildren [SceneNode.mk "primitive" p2 cs2]
      = Except.ok
          ([Mesh.mk (applyTransformList vf2.1 p2.transformations).1 vf2.2
              p2.color] ++ [],
           (applyTransformList vf2.1 p2.transformations).2 ++ []) := by
    simp only [buildChildren, hb2]
    rfl
  have := hgroup (SceneNode.mk "primitive" p1 cs1)
    [SceneNode.mk "primitive" p2 cs2] _ _ hb1 hrest
  simpa using this

/-- C8 witness: a group with a cube child and a sphere child yields two
meshes carrying the children's colors in order. -/
theorem group_children_concatenated_witness :
    (∀ (c : SceneNode) (rest : List SceneNode)
        (a b : List Mesh × List String),
        build_scene c = Except.ok a → buildChildren rest = Except.ok b →
        build_scene (SceneNode.mk "group" emptyFields (c :: rest))
          = Except.ok (a.1 ++ b.1, a.2 ++ b.2)) ∧
    ∃ m1 m2 w1 w2,
      build_scene (SceneNode.mk "primitive" cubeFields [])
        = Except.ok ([m1], w1) ∧
      build_scene (SceneNode.mk "primitive" sphereFields [])
        = Except.ok ([m2], w2) ∧
      m1.color = cubeFields.color ∧ m2.color = sphereFields.color ∧
      build_scene (SceneNode.mk "group" emptyFields
          [SceneNode.mk "primitive" cubeFields [],
           SceneNode.mk "primitive" sphereFields []])
        = Except.ok ([m1, m2], w1 ++ w2) :=
  group_children_concatenated emptyFields cubeFields sphereFields [] []
    (by decide) (by decide)

/-- C9: `create_cube_mesh` with center `(0,0,0)` and size `(2,2,2)` yields
exactly the 8 vertices with all combinations of ±1 coordinates, and
exactly 12 triangular faces. -/
theorem cube_unit_scenario :
    (create_cube_mesh ⟨0, 0, 0⟩ ⟨2, 2, 2⟩).1
      = [⟨-1, -1, -1⟩, ⟨1, -1, -1⟩, ⟨1, 1, -1⟩, ⟨-1, 1, -1⟩,
         ⟨-1, -1, 1⟩, ⟨1, -1, 1⟩, ⟨1, 1, 1⟩, ⟨-1, 1, 1⟩] ∧
    (create_cube_mesh ⟨0, 0, 0⟩ ⟨2, 2, 2⟩).2.length = 12 := by
  refine ⟨?_, rfl⟩
  simp only [create_cube_mesh, List.cons.injEq, and_true]
  norm_num [Vec3.mk.injEq]

end Rocket
